import Mathlib

/-!
Verification of `pkg/cmd/kafka/list/list.go` (the `kafka list` command of
app-services-cli): a shallow embedding of the list-and-enrich pipeline.

Modelling conventions:
* Go errors are modelled as `String` values; fallible collaborators
  (connection acquisition, request-adapter construction, the two API calls,
  session-state load, rendering) are passed to `runList` as explicit
  `Except`-valued oracles, so that the command's control flow over their
  outcomes is the only thing embedded here.
* Localized strings (`Localizer.MustLocalize`) are modelled by their message
  keys; localization is an external collaborator.
* Go `map` values are modelled as association lists with insert-at-front and
  first-match lookup, which reproduces Go's insert-overwrite semantics.
  Go map iteration order is unspecified; the deduplicated id set is modelled
  in first-insertion order, and every property proved about it is
  order-insensitive.
* Observable effects (requests issued, stdout prints, log messages, the
  rendered table or structured dump) are collected in a `Trace`.
-/

namespace KafkaListCmd

/-- Error values raised by collaborators (Go `error`). -/
abbrev Err := String

instance {ε α : Type} [DecidableEq ε] [DecidableEq α] :
    DecidableEq (Except ε α) := fun a b =>
  match a, b with
  | .error x, .error y =>
    if h : x = y then isTrue (by rw [h]) else isFalse (fun hc => h (Except.error.inj hc))
  | .error _, .ok _ => isFalse (fun hc => Except.noConfusion hc)
  | .ok _, .error _ => isFalse (fun hc => Except.noConfusion hc)
  | .ok x, .ok y =>
    if h : x = y then isTrue (by rw [h]) else isFalse (fun hc => h (Except.ok.inj hc))

/-- One fetched Kafka instance record (`models.KafkaRequestable`). The fields
the code dereferences unconditionally (`*k.GetId()`, `*k.GetName()`, ...) are
modelled as plain strings; the cluster reference is optional, mirroring the
code's nil-check on `GetClusterId()`. -/
structure KafkaRequest where
  id : String
  name : String
  owner : String
  status : String
  cloudProvider : String
  region : String
  clusterId : Option String
deriving Repr, DecidableEq

/-- Cluster metadata returned by the cluster-management API
(`ocm-sdk-go` `v1.Cluster`): identifier and display name. -/
structure Cluster where
  id : String
  name : String
deriving Repr, DecidableEq

/-- Accessor semantics of `(*v1.Cluster).Name()`: the generated ocm-sdk-go
getters are nil-receiver safe and return the zero value `""` on a nil
pointer, which is what a Go map lookup miss on `map[string]*v1.Cluster`
produces. `none` models that nil pointer. -/
def clusterName : Option Cluster → String
  | some c => c.name
  | none => ""

/-- Accessor semantics of `(*v1.Cluster).ID()`; see `clusterName`. -/
def clusterID : Option Cluster → String
  | some c => c.id
  | none => ""

/-- The Go `map[string]*v1.Cluster` (`idToCluster` / `clusterIdMap`). -/
abbrev ClusterIndex := List (String × Cluster)

/-- Map lookup on a `ClusterIndex`; a miss yields `none` (Go: nil pointer). -/
def indexFind (m : ClusterIndex) (cid : String) : Option Cluster :=
  List.lookup cid m

/-- Loop `for _, cluster := range clusterList.Slice() { idToCluster[cluster.ID()] = cluster }`:
insert-at-front plus first-match lookup reproduces insert-overwrite. -/
def clusterIndexOfList (clusters : List Cluster) : ClusterIndex :=
  clusters.foldl (fun m c => (c.id, c) :: m) []

/-- Loop of `getClusterIdMapFromKafkas` building `kafkaClusterIds`
(`map[string]struct{}`, used to drop duplicated ids): collects the distinct
non-absent cluster references, in first-insertion order. -/
def collectClusterIds (kafkas : List KafkaRequest) : List String :=
  kafkas.foldl
    (fun acc k =>
      match k.clusterId with
      | some cid => if acc.contains cid then acc else acc ++ [cid]
      | none => acc)
    []

/-- One equality clause `id = 'x'` of the cluster lookup predicate
(`fmt.Sprintf("id = '%s'", id)`). -/
def idClause (id : String) : String := "id = \x27" ++ id ++ "\x27"

/-- Function `createSearchString`: the loop prepends `" or "` before every
clause after the first, i.e. it intercalates the clauses with `" or "`. -/
def createSearchString (idSet : List String) : String :=
  String.intercalate " or " (idSet.map idClause)

/-- Function `buildQuery`: the sprintf format
`"name like %%%[1]v%% or owner like %%%[1]v%% or ..."` expands `%%` to a
literal `%` and `%[1]v` to the search term, spliced in verbatim. -/
def buildQuery (search : String) : String :=
  "name like %" ++ search ++ "% or owner like %" ++ search ++
    "% or cloud_provider like %" ++ search ++ "% or region like %" ++ search ++
    "% or status like %" ++ search ++ "%"

/-- Modelled from the spec: `build.DefaultPageNumber` (package
`internal/build`, not under `src/`) is the first page — the cluster lookup
starts at the first page (§4.3 step 3, §6 pagination defaults). -/
def DefaultPageNumber : Nat := 1

/-- Modelled from the spec: `dump.EmptyFormat` (package
`pkg/core/ioutil/dump`, not under `src/`) is the empty string — an empty
output-format selector means table (§6). -/
def dumpEmptyFormat : String := ""

/-- Modelled from the spec: `icon.Emoji` (package `pkg/core/ioutil/icon`, not
under `src/`) yields the visual "current" marker, its first argument, on
emoji-capable terminals and the fallback text elsewhere; the claims depend
only on the marker being appended, not on which text is chosen. -/
def iconEmoji (emoji _fallback : String) : String := emoji

/-- Localized message key `kafka.common.log.info.noKafkaInstances`. -/
def noKafkaInstancesMessage : String := "kafka.common.log.info.noKafkaInstances"

/-- Localized message key `kafka.list.output.openshiftCluster.redhat`: the
"hosted by the service, no dedicated cluster" sentinel label. -/
def hostedInstanceLabel : String := "kafka.list.output.openshiftCluster.redhat"

/-- Localized debug message `kafka.list.log.debug.filteringKafkaList` with its
`Search` entry. -/
def filteringDebugMessage (query : String) : String :=
  "kafka.list.log.debug.filteringKafkaList Search=" ++ query

/-- Flag values of the command (struct `options`). Page and limit are the Go
`int` flag values; the claims never need negative values. -/
structure Options where
  outputFormat : String
  page : Nat
  limit : Nat
  search : String
  accessToken : String
  clusterManagementApiUrl : String
deriving Repr, DecidableEq

/-- The legacy kafka-mgmt list request built in `runList` lines 119-133:
`GetKafkas` then `.Page(strconv.Itoa(opts.page))`, `.Size(strconv.Itoa(opts.limit))`
and, for a non-empty search term, `.Search(buildQuery(opts.search))`.
This request is constructed but never executed (`.Execute()` is never
called); the fetch actually issued is `kiotaListRequest`. -/
structure LegacyListRequest where
  page : String
  size : String
  search : Option String
deriving Repr, DecidableEq

/-- Construction of the legacy request, mirroring lines 119-133 of the
source. -/
def legacyListRequest (opts : Options) : LegacyListRequest :=
  { page := toString opts.page
    size := toString opts.limit
    search := if opts.search == "" then none else some (buildQuery opts.search) }

/-- Query parameters a kiota kafkas request configuration could carry. -/
structure KiotaQueryParameters where
  page : Option String
  size : Option String
  search : Option String
deriving Repr, DecidableEq

/-- A request to the kiota kafkas endpoint
(`kiotaClient.Api().Kafkas_mgmt().V1().Kafkas().Get(ctx, requestConfiguration)`). -/
structure KiotaKafkaRequest where
  requestConfiguration : Option KiotaQueryParameters
deriving Repr, DecidableEq

/-- The request `runList` actually issues: `Get(opts.f.Context, nil)` — a nil
request configuration, so no page, size or search parameter is attached. -/
def kiotaListRequest : KiotaKafkaRequest := { requestConfiguration := none }

/-- A batched cluster lookup request
(`clustermgmt.GetClusterListWithSearchParams(f, url, token, search, page, size)`). -/
structure ClusterSearchRequest where
  apiUrl : String
  accessToken : String
  search : String
  page : Nat
  size : Nat
deriving Repr, DecidableEq

/-- Function `getClusterIdMapFromKafkas`: dedup the cluster ids referenced by
the kafkas; with no ids, return the empty map without any request; otherwise
issue exactly one lookup request (search string over the distinct ids, first
page, size = number of distinct ids) and key the returned clusters by id.
The second component lists the lookup requests issued (zero or one). -/
def getClusterIdMapFromKafkas (opts : Options)
    (clusterApi : ClusterSearchRequest → Except Err (List Cluster))
    (kafkas : List KafkaRequest) :
    Except Err ClusterIndex × List ClusterSearchRequest :=
  let kafkaClusterIds := collectClusterIds kafkas
  if kafkaClusterIds.length = 0 then
    (Except.ok [], [])
  else
    let req : ClusterSearchRequest :=
      { apiUrl := opts.clusterManagementApiUrl
        accessToken := opts.accessToken
        search := createSearchString kafkaClusterIds
        page := DefaultPageNumber
        size := kafkaClusterIds.length }
    match clusterApi req with
    | .error e => (.error e, [req])
    | .ok clusterList => (.ok (clusterIndexOfList clusterList), [req])

/-- A row of the rendered table (struct `kafkaRow`). -/
structure kafkaRow where
  ID : String
  Name : String
  Owner : String
  Status : String
  CloudProvider : String
  Region : String
  OpenshiftCluster : String
deriving Repr, DecidableEq

/-- Body of the loop of `mapResponseItemsToRows` for one kafka: append the
"current" marker when the instance id equals `selectedId`; resolve the
cluster label through the index when a cluster is referenced
(`fmt.Sprintf("%v (%v)", cluster.Name(), cluster.ID())`), and use the hosted
sentinel otherwise. -/
def kafkaRowOf (selectedId : String) (clusterIdMap : ClusterIndex)
    (k : KafkaRequest) : kafkaRow :=
  let name :=
    if k.id == selectedId then
      k.name ++ " " ++ iconEmoji "✔" "(current)"
    else k.name
  let openshiftCluster :=
    match k.clusterId with
    | some cid =>
      let cluster := indexFind clusterIdMap cid
      clusterName cluster ++ " (" ++ clusterID cluster ++ ")"
    | none => hostedInstanceLabel
  { ID := k.id
    Name := name
    Owner := k.owner
    Status := k.status
    CloudProvider := k.cloudProvider
    Region := k.region
    OpenshiftCluster := openshiftCluster }

/-- Function `mapResponseItemsToRows`: one row per kafka, in fetch order. -/
def mapResponseItemsToRows (kafkas : List KafkaRequest) (selectedId : String)
    (clusterIdMap : ClusterIndex) : List kafkaRow :=
  kafkas.map (kafkaRowOf selectedId clusterIdMap)

/-- Stdout produced by the request-adapter construction step: an adapter
error is only printed (`fmt.Printf("Error creating request adapter: %v\n", err)`)
and execution continues. -/
def adapterStdout : Except Err Unit → List String
  | .error e => ["Error creating request adapter: " ++ e]
  | .ok _ => []

/-- Debug log produced while building the legacy request: emitted only for a
non-empty search term. -/
def searchDebug (opts : Options) : List String :=
  if opts.search == "" then [] else [filteringDebugMessage (buildQuery opts.search)]

/-- Observable effects of one `runList` invocation. -/
structure Trace where
  kafkaRequests : List KiotaKafkaRequest := []
  clusterRequests : List ClusterSearchRequest := []
  stdoutPrints : List String := []
  debugMessages : List String := []
  infoMessages : List String := []
  table : Option (List kafkaRow) := none
  formatted : Option (String × List KafkaRequest) := none
deriving Repr, DecidableEq

/-- Result of one `runList` invocation: its trace and its returned error (or
success). -/
structure RunResult where
  trace : Trace
  outcome : Except Err Unit
deriving Repr, DecidableEq

/-- Function `runList`, with each fallible collaborator passed as an explicit
oracle: `connection` is `opts.f.Connection()`, `adapterResult` is
`http.NewNetHttpRequestAdapter`, `kafkaApi` is the kiota kafkas `Get`,
`clusterApi` is `clustermgmt.GetClusterListWithSearchParams`,
`svcContextLoad` is `opts.f.ServiceContext.Load()`, `currentContext` is
`contextutil.GetCurrentContext` yielding the context's `KafkaID`, and
`formattedDump` is `dump.Formatted`. -/
def runList (opts : Options)
    (connection : Except Err Unit)
    (adapterResult : Except Err Unit)
    (kafkaApi : KiotaKafkaRequest → Except Err (List KafkaRequest))
    (clusterApi : ClusterSearchRequest → Except Err (List Cluster))
    (svcContextLoad : Except Err Unit)
    (currentContext : Except Err String)
    (formattedDump : Except Err Unit) : RunResult :=
  match connection with
  | .error e => { trace := {}, outcome := .error e }
  | .ok _ =>
    let debugMessages := searchDebug opts
    let stdoutPrints := adapterStdout adapterResult ++ ["+++ Using Kiota client"]
    match kafkaApi kiotaListRequest with
    | .error e =>
      { trace := { kafkaRequests := [kiotaListRequest]
                   stdoutPrints := stdoutPrints
                   debugMessages := debugMessages }
        outcome := .error e }
    | .ok items =>
      if items.length == 0 && opts.outputFormat == "" then
        { trace := { kafkaRequests := [kiotaListRequest]
                     stdoutPrints := stdoutPrints
                     debugMessages := debugMessages
                     infoMessages := [noKafkaInstancesMessage] }
          outcome := .ok () }
      else
        match getClusterIdMapFromKafkas opts clusterApi items with
        | (.error e, reqs) =>
          { trace := { kafkaRequests := [kiotaListRequest]
                       clusterRequests := reqs
                       stdoutPrints := stdoutPrints
                       debugMessages := debugMessages }
            outcome := .error e }
        | (.ok clusterIdMap, reqs) =>
          if opts.outputFormat == dumpEmptyFormat then
            match svcContextLoad with
            | .error e =>
              { trace := { kafkaRequests := [kiotaListRequest]
                           clusterRequests := reqs
                           stdoutPrints := stdoutPrints
                           debugMessages := debugMessages }
                outcome := .error e }
            | .ok _ =>
              match currentContext with
              | .error e =>
                { trace := { kafkaRequests := [kiotaListRequest]
                             clusterRequests := reqs
                             stdoutPrints := stdoutPrints
                             debugMessages := debugMessages }
                  outcome := .error e }
              | .ok kafkaID =>
                let rows :=
                  if kafkaID != "" then
                    mapResponseItemsToRows items kafkaID clusterIdMap
                  else
                    mapResponseItemsToRows items "-" clusterIdMap
                { trace := { kafkaRequests := [kiotaListRequest]
                             clusterRequests := reqs
                             stdoutPrints := stdoutPrints
                             debugMessages := debugMessages
                             infoMessages := [""]
                             table := some rows }
                  outcome := .ok () }
          else
            match formattedDump with
            | .error e =>
              { trace := { kafkaRequests := [kiotaListRequest]
                           clusterRequests := reqs
                           stdoutPrints := stdoutPrints
                           debugMessages := debugMessages }
                outcome := .error e }
            | .ok _ =>
              { trace := { kafkaRequests := [kiotaListRequest]
                           clusterRequests := reqs
                           stdoutPrints := stdoutPrints
                           debugMessages := debugMessages
                           formatted := some (opts.outputFormat, items) }
                outcome := .ok () }

/-- The field list of the `buildQuery` predicate, in source order. -/
def queryFields : List String := ["name", "owner", "cloud_provider", "region", "status"]

/-- One LIKE clause of the `buildQuery` predicate. -/
def likeClause (field term : String) : String := field ++ " like %" ++ term ++ "%"

section Fixtures

/-- Fixture: an instance on dedicated cluster "c1". -/
def kafkaA : KafkaRequest :=
  { id := "k1", name := "alpha", owner := "owner1", status := "ready"
    cloudProvider := "aws", region := "us-east-1", clusterId := some "c1" }

/-- Fixture: a second instance on the same cluster "c1". -/
def kafkaB : KafkaRequest :=
  { id := "k2", name := "beta", owner := "owner2", status := "ready"
    cloudProvider := "aws", region := "us-east-1", clusterId := some "c1" }

/-- Fixture: a hosted instance with no cluster reference. -/
def kafkaC : KafkaRequest :=
  { id := "k3", name := "gamma", owner := "owner3", status := "provisioning"
    cloudProvider := "gcp", region := "eu-west-1", clusterId := none }

/-- Fixture: an instance whose identifier collides with the "-" sentinel. -/
def kafkaDash : KafkaRequest :=
  { id := "-", name := "dash", owner := "owner4", status := "ready"
    cloudProvider := "aws", region := "us-east-1", clusterId := none }

/-- Fixture: the cluster metadata for "c1". -/
def clusterC1 : Cluster := { id := "c1", name := "prod-cluster" }

/-- Fixture: a kafka API oracle answering every request with `items`. -/
def okKafkaApi (items : List KafkaRequest) :
    KiotaKafkaRequest → Except Err (List KafkaRequest) := fun _ => .ok items

/-- Fixture: a kafka API oracle failing every request with `e`. -/
def failKafkaApi (e : Err) :
    KiotaKafkaRequest → Except Err (List KafkaRequest) := fun _ => .error e

/-- Fixture: a cluster API oracle answering every request with `cs`. -/
def okClusterApi (cs : List Cluster) :
    ClusterSearchRequest → Except Err (List Cluster) := fun _ => .ok cs

/-- Fixture: a cluster API oracle failing every request with `e`. -/
def failClusterApi (e : Err) :
    ClusterSearchRequest → Except Err (List Cluster) := fun _ => .error e

/-- Fixture: default flags (table output, first page, limit 10, no search). -/
def optsTable : Options :=
  { outputFormat := "", page := 1, limit := 10, search := ""
    accessToken := "", clusterManagementApiUrl := "" }

/-- Fixture: flags requesting structured JSON output. -/
def optsJson : Options :=
  { outputFormat := "json", page := 1, limit := 10, search := ""
    accessToken := "", clusterManagementApiUrl := "" }

end Fixtures

section HelperLemmas

/-- Appending a non-empty string changes a string. -/
theorem append_ne_left (a b : String) (hb : 0 < b.length) : a ++ b ≠ a := by
  intro h
  have hlen := congrArg String.length h
  rw [String.length_append] at hlen
  omega

/-- Appending the space plus a non-empty marker changes a display name. -/
theorem marked_name_ne (a m : String) (hm : 0 < m.length) :
    a ++ " " ++ m ≠ a := by
  intro h
  have hlen := congrArg String.length h
  rw [String.length_append, String.length_append] at hlen
  have hsp : (" " : String).length = 1 := rfl
  omega

/-- Membership in the dedup fold of `collectClusterIds`, generalized over the
accumulator. -/
theorem mem_collect_fold (kafkas : List KafkaRequest) (acc : List String)
    (cid : String) :
    cid ∈ kafkas.foldl
      (fun acc k =>
        match k.clusterId with
        | some c => if acc.contains c then acc else acc ++ [c]
        | none => acc) acc
      ↔ cid ∈ acc ∨ ∃ k ∈ kafkas, k.clusterId = some cid := by
  induction kafkas generalizing acc with
  | nil => simp
  | cons k rest ih =>
    simp only [List.foldl_cons, ih]
    cases hk : k.clusterId with
    | none =>
      simp only [List.mem_cons]
      constructor
      · rintro (h | h)
        · exact Or.inl h
        · exact Or.inr ⟨h.choose, Or.inr h.choose_spec.1, h.choose_spec.2⟩
      · rintro (h | ⟨k2, hk2, hc⟩)
        · exact Or.inl h
        · rcases hk2 with h1 | h2
          · subst h1; rw [hk] at hc; cases hc
          · exact Or.inr ⟨k2, h2, hc⟩
    | some c =>
      by_cases hmem : acc.contains c
      · simp only [hmem, if_pos]
        constructor
        · rintro (h | h)
          · exact Or.inl h
          · exact Or.inr ⟨h.choose, List.mem_cons_of_mem _ h.choose_spec.1, h.choose_spec.2⟩
        · rintro (h | ⟨k2, hk2, hc⟩)
          · exact Or.inl h
          · rcases List.mem_cons.mp hk2 with h1 | h2
            · subst h1
              rw [hk] at hc
              injection hc with hcc
              subst hcc
              exact Or.inl (List.elem_iff.mp hmem)
            · exact Or.inr ⟨k2, h2, hc⟩
      · simp only [hmem, if_neg, Bool.false_eq_true, not_false_iff, List.mem_append,
          List.mem_singleton]
        constructor
        · rintro (h | h)
          · rcases h with h | h
            · exact Or.inl h
            · exact Or.inr ⟨k, List.mem_cons_self _ _, by rw [hk, h]⟩
          · exact Or.inr ⟨h.choose, List.mem_cons_of_mem _ h.choose_spec.1, h.choose_spec.2⟩
        · rintro (h | ⟨k2, hk2, hc⟩)
          · exact Or.inl (Or.inl h)
          · rcases List.mem_cons.mp hk2 with h1 | h2
            · subst h1
              rw [hk] at hc
              injection hc with hcc
              exact Or.inl (Or.inr hcc.symm)
            · exact Or.inr ⟨k2, h2, hc⟩

/-- The dedup fold of `collectClusterIds` preserves `Nodup` of the
accumulator. -/
theorem nodup_collect_fold (kafkas : List KafkaRequest) (acc : List String)
    (hacc : acc.Nodup) :
    (kafkas.foldl
      (fun acc k =>
        match k.clusterId with
        | some c => if acc.contains c then acc else acc ++ [c]
        | none => acc) acc).Nodup := by
  induction kafkas generalizing acc with
  | nil => simpa
  | cons k rest ih =>
    simp only [List.foldl_cons]
    apply ih
    cases hk : k.clusterId with
    | none => exact hacc
    | some c =>
      by_cases hmem : acc.contains c = true
      · simp only [hmem, if_pos]
        exact hacc
      · have hnot : c ∉ acc := fun hc => hmem (List.elem_iff.mpr hc)
        simp only [hmem, if_neg, Bool.false_eq_true, not_false_iff]
        simp [List.nodup_append, hacc, hnot]

/-- Characterization of membership in `collectClusterIds`. -/
theorem mem_collectClusterIds (kafkas : List KafkaRequest) (cid : String) :
    cid ∈ collectClusterIds kafkas ↔ ∃ k ∈ kafkas, k.clusterId = some cid := by
  rw [collectClusterIds, mem_collect_fold]
  simp

/-- The list of distinct cluster ids has no duplicates. -/
theorem nodup_collectClusterIds (kafkas : List KafkaRequest) :
    (collectClusterIds kafkas).Nodup :=
  nodup_collect_fold kafkas [] List.nodup_nil

/-- Clause construction is injective in the identifier. -/
theorem idClause_injective : Function.Injective idClause := by
  intro a b h
  have hd := congrArg String.data h
  simp only [idClause, String.data_append] at hd
  have h2 := List.append_cancel_right hd
  have h3 := List.append_cancel_left h2
  exact String.ext h3

/-- Lookup in the key-by-id fold of `clusterIndexOfList`, generalized over
the accumulator. -/
theorem lookup_fold_isSome (clusters : List Cluster) (acc : ClusterIndex)
    (cid : String) :
    (List.lookup cid (clusters.foldl (fun m c => (c.id, c) :: m) acc)).isSome
      ↔ (∃ c ∈ clusters, c.id = cid) ∨ (List.lookup cid acc).isSome := by
  induction clusters generalizing acc with
  | nil => simp
  | cons c rest ih =>
    simp only [List.foldl_cons, ih]
    by_cases h : cid = c.id
    · have hB : (List.lookup cid ((c.id, c) :: acc)).isSome := by
        simp [List.lookup_cons, h]
      have hA : ∃ x ∈ c :: rest, x.id = cid :=
        ⟨c, List.mem_cons_self _ _, h.symm⟩
      constructor
      · intro _
        exact Or.inl hA
      · intro _
        exact Or.inr hB
    · have hbeq : (cid == c.id) = false := beq_eq_false_iff_ne.mpr h
      simp only [List.lookup_cons, hbeq]
      constructor
      · rintro (hr | hb)
        · exact Or.inl
            ⟨hr.choose, List.mem_cons_of_mem _ hr.choose_spec.1, hr.choose_spec.2⟩
        · exact Or.inr hb
      · rintro (ha | hc)
        · rcases ha with ⟨x, hx, hxid⟩
          rcases List.mem_cons.mp hx with h1 | h2
          · subst h1
            exact absurd hxid.symm h
          · exact Or.inl ⟨x, h2, hxid⟩
        · exact Or.inr hc

/-- A `ClusterIndex` built from a response list has an entry exactly for the
identifiers appearing in that list. -/
theorem indexFind_isSome (clusters : List Cluster) (cid : String) :
    (indexFind (clusterIndexOfList clusters) cid).isSome
      ↔ ∃ c ∈ clusters, c.id = cid := by
  have h := lookup_fold_isSome clusters [] cid
  simpa [indexFind, clusterIndexOfList] using h

end HelperLemmas

/-- C2: the Cluster Resolver deduplicates cluster references: the collected id
set has no duplicates and holds exactly the distinct non-absent references;
each distinct referenced identifier yields exactly one equality clause; when
at least one instance references a cluster, exactly one lookup request is
issued and its predicate intercalates those clauses; and when no instance
references a cluster, zero lookup requests are issued and the returned
ClusterIndex is empty. -/
theorem c2_cluster_resolver_dedup (opts : Options)
    (clusterApi : ClusterSearchRequest → Except Err (List Cluster))
    (kafkas : List KafkaRequest) :
    (collectClusterIds kafkas).Nodup
    ∧ (∀ cid, cid ∈ collectClusterIds kafkas ↔ ∃ k ∈ kafkas, k.clusterId = some cid)
    ∧ (∀ cid, cid ∈ collectClusterIds kafkas →
        ((collectClusterIds kafkas).map idClause).count (idClause cid) = 1)
    ∧ ((∃ k ∈ kafkas, k.clusterId ≠ none) →
        (getClusterIdMapFromKafkas opts clusterApi kafkas).2
          = [{ apiUrl := opts.clusterManagementApiUrl
               accessToken := opts.accessToken
               search := String.intercalate " or " ((collectClusterIds kafkas).map idClause)
               page := DefaultPageNumber
               size := (collectClusterIds kafkas).length }])
    ∧ ((∀ k ∈ kafkas, k.clusterId = none) →
        getClusterIdMapFromKafkas opts clusterApi kafkas = (.ok [], [])) := by
  refine ⟨nodup_collectClusterIds kafkas, mem_collectClusterIds kafkas, ?_, ?_, ?_⟩
  · intro cid hmem
    exact List.count_eq_one_of_mem
      ((nodup_collectClusterIds kafkas).map idClause_injective)
      (List.mem_map_of_mem idClause hmem)
  · rintro ⟨k, hk, hcid⟩
    rcases Option.ne_none_iff_exists.mp hcid with ⟨cid, hcid2⟩
    have hmem : cid ∈ collectClusterIds kafkas :=
      (mem_collectClusterIds kafkas cid).mpr ⟨k, hk, hcid2.symm⟩
    have hne : (collectClusterIds kafkas).length ≠ 0 :=
      fun h0 => by simp [List.length_eq_zero.mp h0] at hmem
    simp only [getClusterIdMapFromKafkas, createSearchString, hne, if_neg]
    cases clusterApi
        { apiUrl := opts.clusterManagementApiUrl
          accessToken := opts.accessToken
          search := String.intercalate " or " ((collectClusterIds kafkas).map idClause)
          page := DefaultPageNumber
          size := (collectClusterIds kafkas).length } <;> rfl
  · intro hnone
    have hempty : collectClusterIds kafkas = [] := by
      apply List.eq_nil_iff_forall_not_mem.mpr
      intro cid hmem
      rcases (mem_collectClusterIds kafkas cid).mp hmem with ⟨k, hk, hcid⟩
      rw [hnone k hk] at hcid
      cases hcid
    simp [getClusterIdMapFromKafkas, hempty]

/-- C2 witness: in a fleet with two instances on "c1" and one hosted
instance, "c1" is collected and appears in exactly one clause. -/
theorem c2_witness :
    ("c1" ∈ collectClusterIds [kafkaA, kafkaB, kafkaC])
    ∧ ((collectClusterIds [kafkaA, kafkaB, kafkaC]).map idClause).count
        (idClause "c1") = 1 :=
  ⟨by decide,
    (c2_cluster_resolver_dedup optsTable (okClusterApi [])
      [kafkaA, kafkaB, kafkaC]).2.2.1 "c1" (by decide)⟩

/-- C4 counterexample: instance k1 references cluster "c1"; the lookup
succeeds but returns no clusters, so the built ClusterIndex has no entry for
"c1"; the invocation nevertheless succeeds with the incomplete index instead
of failing. -/
theorem c4_counterexample :
    kafkaA.clusterId = some "c1"
    ∧ (getClusterIdMapFromKafkas optsTable (okClusterApi []) [kafkaA]).1 = .ok []
    ∧ indexFind [] "c1" = none
    ∧ (runList optsTable (.ok ()) (.ok ()) (okKafkaApi [kafkaA]) (okClusterApi [])
        (.ok ()) (.ok "") (.ok ())).outcome = .ok () :=
  ⟨rfl, rfl, rfl, rfl⟩

/-- C4 amended: the ClusterIndex has an entry exactly for the cluster
identifiers present in the lookup response, and whenever the lookup succeeds
the resolver returns that (possibly incomplete) index without failing — a
referenced identifier the response omits is silently absent. -/
theorem c4_index_keyed_by_response (opts : Options) (kafkas : List KafkaRequest)
    (clusters : List Cluster) (cid : String) :
    ((indexFind (clusterIndexOfList clusters) cid).isSome
      ↔ ∃ c ∈ clusters, c.id = cid)
    ∧ (getClusterIdMapFromKafkas opts (okClusterApi clusters) kafkas).1
        = .ok (if (collectClusterIds kafkas).length = 0 then []
               else clusterIndexOfList clusters) := by
  refine ⟨indexFind_isSome clusters cid, ?_⟩
  by_cases h0 : (collectClusterIds kafkas).length = 0
  · simp [getClusterIdMapFromKafkas, h0]
  · simp [getClusterIdMapFromKafkas, h0, okClusterApi]

/-- C4 witness: the amended characterization applied at a one-cluster
response. -/
theorem c4_witness :
    (indexFind (clusterIndexOfList [clusterC1]) "c1").isSome :=
  (c4_index_keyed_by_response optsTable [kafkaA] [clusterC1] "c1").1.mpr
    ⟨clusterC1, by decide, rfl⟩

/-- C6 counterexample: with the active-selection identifier equal to the
empty-session sentinel "-", an instance whose own identifier is "-" still
receives the "current" marker, because the projector only compares
identifiers and gives the sentinel no special treatment. -/
theorem c6_counterexample :
    (mapResponseItemsToRows [kafkaDash] "-" []).map kafkaRow.Name
      = [kafkaDash.name ++ " " ++ iconEmoji "✔" "(current)"]
    ∧ kafkaDash.name ++ " " ++ iconEmoji "✔" "(current)" ≠ kafkaDash.name :=
  ⟨rfl, by decide⟩

/-- C6 amended: the "current" marker is appended to a row's display name iff
the instance identifier equals the active-selection identifier; under the
"-" sentinel only an instance whose identifier is itself "-" is marked, and
every other row is unmarked. -/
theorem c6_current_marker (kafkas : List KafkaRequest) (selectedId : String)
    (idx : ClusterIndex) (i : Nat) :
    (mapResponseItemsToRows kafkas selectedId idx)[i]?
      = (kafkas[i]?).map (kafkaRowOf selectedId idx)
    ∧ (∀ k : KafkaRequest,
        (kafkaRowOf selectedId idx k).Name
          = (if k.id = selectedId
             then k.name ++ " " ++ iconEmoji "✔" "(current)"
             else k.name))
    ∧ (∀ k : KafkaRequest,
        ((kafkaRowOf selectedId idx k).Name ≠ k.name ↔ k.id = selectedId)) := by
  have hname : ∀ k : KafkaRequest,
      (kafkaRowOf selectedId idx k).Name
        = (if k.id = selectedId
           then k.name ++ " " ++ iconEmoji "✔" "(current)"
           else k.name) := by
    intro k
    by_cases h : k.id = selectedId <;> simp [kafkaRowOf, h]
  refine ⟨by simp [mapResponseItemsToRows], hname, ?_⟩
  intro k
  rw [hname k]
  by_cases h : k.id = selectedId
  · rw [if_pos h]
    have hne : k.name ++ " " ++ iconEmoji "✔" "(current)" ≠ k.name :=
      marked_name_ne k.name (iconEmoji "✔" "(current)") (by decide)
    exact ⟨fun _ => h, fun _ => hne⟩
  · rw [if_neg h]
    exact ⟨fun hcontra => absurd rfl hcontra, fun hcontra => absurd hcontra h⟩

/-- C6 witness: the marker iff applied at instance k1 with selection "k1". -/
theorem c6_witness :
    (kafkaRowOf "k1" [] kafkaA).Name ≠ kafkaA.name :=
  ((c6_current_marker [kafkaA] "k1" [] 0).2.2 kafkaA).mpr rfl

/-- C8: for an instance with a cluster reference the row's cluster label is
the ClusterIndex lookup result formatted as "<name> (<id>)" — in particular
the entry's name and id when the entry is present — and for an instance with
no cluster reference the label is the fixed hosted sentinel, independent of
the index content, never a lookup result. -/
theorem c8_cluster_label (selectedId : String) (idx : ClusterIndex)
    (k : KafkaRequest) :
    (∀ cid, k.clusterId = some cid →
      (kafkaRowOf selectedId idx k).OpenshiftCluster
        = clusterName (indexFind idx cid) ++ " (" ++ clusterID (indexFind idx cid) ++ ")"
      ∧ (∀ c, indexFind idx cid = some c →
          (kafkaRowOf selectedId idx k).OpenshiftCluster
            = c.name ++ " (" ++ c.id ++ ")"))
    ∧ (k.clusterId = none →
        (kafkaRowOf selectedId idx k).OpenshiftCluster = hostedInstanceLabel) := by
  constructor
  · intro cid hcid
    constructor
    · simp [kafkaRowOf, hcid]
    · intro c hc
      simp [kafkaRowOf, hcid, hc, clusterName, clusterID]
  · intro hnone
    simp [kafkaRowOf, hnone]

/-- C8 witness: the label of k1 resolved through an index holding "c1". -/
theorem c8_witness :
    (kafkaRowOf "-" (clusterIndexOfList [clusterC1]) kafkaA).OpenshiftCluster
      = clusterC1.name ++ " (" ++ clusterC1.id ++ ")" :=
  ((c8_cluster_label "-" (clusterIndexOfList [clusterC1]) kafkaA).1 "c1" rfl).2
    clusterC1 rfl

/-- C9: the Row Projector is total on lookup misses: it produces one row per
instance (length preserved), and an instance whose referenced cluster is
absent from the index gets the degenerate " ()" label — the nil-receiver-safe
ocm-sdk-go accessors yield empty strings on the nil pointer a Go map miss
produces — rather than a crash. -/
theorem c9_lookup_miss_produces_row (kafkas : List KafkaRequest)
    (selectedId : String) (idx : ClusterIndex) :
    (mapResponseItemsToRows kafkas selectedId idx).length = kafkas.length
    ∧ (∀ k : KafkaRequest, ∀ cid, k.clusterId = some cid →
        indexFind idx cid = none →
        (kafkaRowOf selectedId idx k).OpenshiftCluster = " ()") := by
  constructor
  · simp [mapResponseItemsToRows]
  · intro k cid hcid hmiss
    simp [kafkaRowOf, hcid, hmiss, clusterName, clusterID]

/-- C9 witness: the miss case applied at k1 against an empty index. -/
theorem c9_witness :
    kafkaA.clusterId = some "c1"
    ∧ indexFind [] "c1" = none
    ∧ (kafkaRowOf "-" [] kafkaA).OpenshiftCluster = " ()" :=
  ⟨rfl, rfl, (c9_lookup_miss_produces_row [kafkaA] "-" []).2 kafkaA "c1" rfl rfl⟩

/-- C1: code-bug evaluation at the failing input. With the caller requesting
page 2, page size 5 and search term "abc", `runList` issues exactly one
request to the instance-management API and that request carries a nil
configuration — no page, size or search parameter — while the caller's page,
size and built predicate are set only on the legacy request, which is never
executed. -/
theorem c1_issued_request_carries_no_parameters :
    (runList { outputFormat := "", page := 2, limit := 5, search := "abc"
               accessToken := "", clusterManagementApiUrl := "" }
        (.ok ()) (.ok ()) (okKafkaApi [kafkaA]) (okClusterApi [clusterC1])
        (.ok ()) (.ok "k1") (.ok ())).trace.kafkaRequests
      = [{ requestConfiguration := none }]
    ∧ legacyListRequest { outputFormat := "", page := 2, limit := 5, search := "abc"
                          accessToken := "", clusterManagementApiUrl := "" }
      = { page := "2", size := "5", search := some (buildQuery "abc") } :=
  ⟨rfl, rfl⟩

/-- C5: for every non-empty search term S, `buildQuery` produces exactly the
five OR-combined LIKE clauses over name, owner, cloud_provider, region and
status, with S spliced into each clause verbatim (no escaping). -/
theorem c5_query_has_five_like_clauses (s : String) (_h : s ≠ "") :
    buildQuery s
      = String.intercalate " or " (queryFields.map (fun f => likeClause f s))
    ∧ queryFields = ["name", "owner", "cloud_provider", "region", "status"]
    ∧ queryFields.length = 5
    ∧ (∀ f ∈ queryFields, likeClause f s = f ++ " like %" ++ s ++ "%") := by
  refine ⟨?_, rfl, rfl, fun f _ => rfl⟩
  apply String.ext
  simp [buildQuery, queryFields, likeClause, String.intercalate,
    String.intercalate.go, String.data_append, List.append_assoc]

/-- C5 witness: the theorem applied at the concrete term "abc". -/
theorem c5_witness :
    ("abc" : String) ≠ ""
    ∧ buildQuery "abc"
      = String.intercalate " or " (queryFields.map (fun f => likeClause f "abc")) :=
  ⟨by decide, (c5_query_has_five_like_clauses "abc" (by decide)).1⟩

/-- C3 counterexample: request-adapter construction fails with "adapter boom"
but the command does not return that failure: the error is only printed to
standard output, execution continues, and the invocation returns the
subsequent API-call failure "kafka boom" instead. -/
theorem c3_counterexample :
    (runList optsJson (.ok ()) (.error "adapter boom") (failKafkaApi "kafka boom")
        (okClusterApi []) (.ok ()) (.ok "") (.ok ())).outcome
      = .error "kafka boom"
    ∧ (runList optsJson (.ok ()) (.error "adapter boom") (failKafkaApi "kafka boom")
        (okClusterApi []) (.ok ()) (.ok "") (.ok ())).outcome
      ≠ .error "adapter boom"
    ∧ (runList optsJson (.ok ()) (.error "adapter boom") (failKafkaApi "kafka boom")
        (okClusterApi []) (.ok ()) (.ok "") (.ok ())).trace.stdoutPrints
      = ["Error creating request adapter: adapter boom", "+++ Using Kiota client"] :=
  ⟨rfl, by decide, rfl⟩

/-- C3 amended: every collaborator failure except request-adapter construction
is returned unchanged with no retry — connection acquisition, the instance
API call, the cluster lookup, session-state load, current-context
resolution, and structured rendering; a request-adapter construction failure
is only printed to standard output and execution continues (the invocation
can even succeed); the empty result set is the only other locally absorbed
condition. -/
theorem c3_error_propagation (opts : Options)
    (adp svc fd : Except Err Unit)
    (kapi : KiotaKafkaRequest → Except Err (List KafkaRequest))
    (capi : ClusterSearchRequest → Except Err (List Cluster))
    (cctx : Except Err String)
    (e : Err) (items : List KafkaRequest) :
    (runList opts (.error e) adp kapi capi svc cctx fd).outcome = .error e
    ∧ (kapi kiotaListRequest = .error e →
        (runList opts (.ok ()) adp kapi capi svc cctx fd).outcome = .error e)
    ∧ (∀ reqs, kapi kiotaListRequest = .ok items →
        (items.length == 0 && opts.outputFormat == "") = false →
        getClusterIdMapFromKafkas opts capi items = (.error e, reqs) →
        (runList opts (.ok ()) adp kapi capi svc cctx fd).outcome = .error e)
    ∧ (∀ m reqs, kapi kiotaListRequest = .ok items →
        (items.length == 0 && opts.outputFormat == "") = false →
        getClusterIdMapFromKafkas opts capi items = (.ok m, reqs) →
        opts.outputFormat = "" →
        (runList opts (.ok ()) adp kapi capi (.error e) cctx fd).outcome = .error e)
    ∧ (∀ m reqs, kapi kiotaListRequest = .ok items →
        (items.length == 0 && opts.outputFormat == "") = false →
        getClusterIdMapFromKafkas opts capi items = (.ok m, reqs) →
        opts.outputFormat = "" →
        (runList opts (.ok ()) adp kapi capi (.ok ()) (.error e) fd).outcome = .error e)
    ∧ (∀ m reqs, kapi kiotaListRequest = .ok items →
        getClusterIdMapFromKafkas opts capi items = (.ok m, reqs) →
        opts.outputFormat ≠ "" →
        (runList opts (.ok ()) adp kapi capi svc cctx (.error e)).outcome = .error e)
    ∧ (∀ m reqs kafkaID, kapi kiotaListRequest = .ok items →
        getClusterIdMapFromKafkas opts capi items = (.ok m, reqs) →
        opts.outputFormat = "" →
        (items.length == 0) = false →
        (runList opts (.ok ()) (.error e) kapi capi (.ok ()) (.ok kafkaID) fd).outcome
          = .ok ()
        ∧ (runList opts (.ok ()) (.error e) kapi capi (.ok ()) (.ok kafkaID) fd).trace.stdoutPrints
          = ["Error creating request adapter: " ++ e, "+++ Using Kiota client"]) := by
  refine ⟨rfl, ?_, ?_, ?_, ?_, ?_, ?_⟩
  · intro hk
    simp [runList, hk]
  · intro reqs hk hempty hmap
    simp [runList, hk, hempty, hmap]
  · intro m reqs hk hempty hmap hfmt
    have hne : ¬items = [] := by
      intro h0
      simp [hfmt, h0] at hempty
    simp [runList, hk, hempty, hmap, hfmt, hne, dumpEmptyFormat]
  · intro m reqs hk hempty hmap hfmt
    have hne : ¬items = [] := by
      intro h0
      simp [hfmt, h0] at hempty
    simp [runList, hk, hempty, hmap, hfmt, hne, dumpEmptyFormat]
  · intro m reqs hk hmap hfmt
    have hb : (opts.outputFormat == "") = false := beq_eq_false_iff_ne.mpr hfmt
    simp [runList, hk, hb, hmap, dumpEmptyFormat]
  · intro m reqs kafkaID hk hmap hfmt hlen
    simp [runList, hk, hlen, hmap, hfmt, dumpEmptyFormat, adapterStdout]

/-- C3 witness: the instance-API conjunct applied: failure "boom" from the
instance API is returned unchanged. -/
theorem c3_witness :
    (runList optsJson (.ok ()) (.ok ()) (failKafkaApi "boom") (okClusterApi [])
        (.ok ()) (.ok "") (.ok ())).outcome = .error "boom" :=
  (c3_error_propagation optsJson (.ok ()) (.ok ()) (.ok ()) (failKafkaApi "boom")
      (okClusterApi []) (.ok "") "boom" []).2.1 rfl

/-- C7: empty fetched page: with the default table format the command emits
exactly one informational "no instances" message, prints no table, renders
nothing, and returns success; with a structured format the empty document is
still rendered through the structured dump and no informational message is
emitted. -/
theorem c7_empty_page (opts : Options)
    (adp : Except Err Unit)
    (kapi : KiotaKafkaRequest → Except Err (List KafkaRequest))
    (capi : ClusterSearchRequest → Except Err (List Cluster))
    (svc : Except Err Unit) (cctx : Except Err String)
    (hk : kapi kiotaListRequest = .ok []) :
    (opts.outputFormat = "" →
      (runList opts (.ok ()) adp kapi capi svc cctx (.ok ())).outcome = .ok ()
      ∧ (runList opts (.ok ()) adp kapi capi svc cctx (.ok ())).trace.infoMessages
          = [noKafkaInstancesMessage]
      ∧ (runList opts (.ok ()) adp kapi capi svc cctx (.ok ())).trace.table = none
      ∧ (runList opts (.ok ()) adp kapi capi svc cctx (.ok ())).trace.formatted = none)
    ∧ (opts.outputFormat ≠ "" →
        (runList opts (.ok ()) adp kapi capi svc cctx (.ok ())).outcome = .ok ()
        ∧ (runList opts (.ok ()) adp kapi capi svc cctx (.ok ())).trace.formatted
            = some (opts.outputFormat, [])
        ∧ (runList opts (.ok ()) adp kapi capi svc cctx (.ok ())).trace.table = none
        ∧ (runList opts (.ok ()) adp kapi capi svc cctx (.ok ())).trace.infoMessages
            = []) := by
  constructor
  · intro hfmt
    simp [runList, hk, hfmt]
  · intro hfmt
    have hb : (opts.outputFormat == "") = false := beq_eq_false_iff_ne.mpr hfmt
    have hmap : getClusterIdMapFromKafkas opts capi [] = (.ok [], []) := rfl
    simp [runList, hk, hb, hmap, dumpEmptyFormat]

/-- C7 witness: the empty page applied under the table format and under the
json format. -/
theorem c7_witness :
    (runList optsTable (.ok ()) (.ok ()) (okKafkaApi []) (okClusterApi [])
        (.ok ()) (.ok "") (.ok ())).trace.infoMessages = [noKafkaInstancesMessage]
    ∧ (runList optsJson (.ok ()) (.ok ()) (okKafkaApi []) (okClusterApi [])
        (.ok ()) (.ok "") (.ok ())).trace.formatted = some ("json", []) :=
  ⟨((c7_empty_page optsTable (.ok ()) (okKafkaApi []) (okClusterApi [])
      (.ok ()) (.ok "") rfl).1 rfl).2.1,
    ((c7_empty_page optsJson (.ok ()) (okKafkaApi []) (okClusterApi [])
      (.ok ()) (.ok "") rfl).2 (by decide)).2.1⟩

/-- C10: with a structured output format and a fetched page in which some
instance references a cluster, the cluster batch lookup is still issued
(exactly one request); a failure of that lookup aborts the invocation with
its error; and on success the structured dump renders the raw fetched page —
the index the lookup produced is never read on that path. -/
theorem c10_structured_path_cluster_lookup (opts : Options)
    (adp svc : Except Err Unit)
    (kapi : KiotaKafkaRequest → Except Err (List KafkaRequest))
    (capi : ClusterSearchRequest → Except Err (List Cluster))
    (cctx : Except Err String) (fd : Except Err Unit)
    (items : List KafkaRequest) (k : KafkaRequest) (cid : String) (e : Err)
    (hk : kapi kiotaListRequest = .ok items)
    (hmem : k ∈ items) (hcid : k.clusterId = some cid)
    (hfmt : opts.outputFormat ≠ "") :
    (runList opts (.ok ()) adp kapi capi svc cctx fd).trace.clusterRequests
      = (getClusterIdMapFromKafkas opts capi items).2
    ∧ (getClusterIdMapFromKafkas opts capi items).2.length = 1
    ∧ (∀ reqs, getClusterIdMapFromKafkas opts capi items = (.error e, reqs) →
        (runList opts (.ok ()) adp kapi capi svc cctx fd).outcome = .error e)
    ∧ (∀ m reqs, getClusterIdMapFromKafkas opts capi items = (.ok m, reqs) →
        fd = .ok () →
        (runList opts (.ok ()) adp kapi capi svc cctx fd).outcome = .ok ()
        ∧ (runList opts (.ok ()) adp kapi capi svc cctx fd).trace.formatted
            = some (opts.outputFormat, items)) := by
  have hb : (opts.outputFormat == "") = false := beq_eq_false_iff_ne.mpr hfmt
  have hlen : (collectClusterIds items).length ≠ 0 := by
    intro h0
    have hmemc : cid ∈ collectClusterIds items :=
      (mem_collectClusterIds items cid).mpr ⟨k, hmem, hcid⟩
    simp [List.length_eq_zero.mp h0] at hmemc
  refine ⟨?_, ?_, ?_, ?_⟩
  · rcases hres : getClusterIdMapFromKafkas opts capi items with ⟨res, reqs⟩
    cases res with
    | error e2 => simp [runList, hk, hb, hres]
    | ok m =>
      cases fd with
      | error e2 => simp [runList, hk, hb, hres, dumpEmptyFormat]
      | ok _ => simp [runList, hk, hb, hres, dumpEmptyFormat]
  · simp only [getClusterIdMapFromKafkas, hlen, if_neg]
    cases capi
        { apiUrl := opts.clusterManagementApiUrl
          accessToken := opts.accessToken
          search := createSearchString (collectClusterIds items)
          page := DefaultPageNumber
          size := (collectClusterIds items).length } <;> rfl
  · intro reqs hmap
    simp [runList, hk, hb, hmap]
  · intro m reqs hmap hfd
    subst hfd
    simp [runList, hk, hb, hmap, dumpEmptyFormat]

/-- C10 witness: the abort conjunct applied: a cluster-lookup failure "boom"
aborts a json-format invocation with that error. -/
theorem c10_witness :
    (runList optsJson (.ok ()) (.ok ()) (okKafkaApi [kafkaA])
        (failClusterApi "boom") (.ok ()) (.ok "") (.ok ())).outcome
      = .error "boom" :=
  (c10_structured_path_cluster_lookup optsJson (.ok ()) (.ok ())
      (okKafkaApi [kafkaA]) (failClusterApi "boom") (.ok "") (.ok ())
      [kafkaA] kafkaA "c1" "boom" rfl (by decide) rfl (by decide)).2.2.1 _ rfl

end KafkaListCmd
